import Mathlib

/-!
Verification of the WhatsApp AI bot ingestion/dispatch pipeline.

Shallow embedding of the core components of the repository:
rate limiter (`app/utils/rate_limiter.py`), dedup lookup
(`app/models/crud.py`), webhook handlers (`app/api/*.py`),
message processor (`app/services/message_processor.py`),
outbound senders (`app/services/waha_service.py`,
`app/services/twilio_service.py`) and the OpenAI context builder
(`app/services/openai_service.py`).

Timestamps and delays are modelled as rationals; Python `Optional`
values as `Option`; exceptions raised by collaborators as `Except`.
-/

/-- `MessageDirection` enum from `app/models/database.py`. -/
inductive MessageDirection
  | incoming
  | outgoing
deriving DecidableEq, Repr

/-- `MessageType` enum from `app/models/database.py`. -/
inductive MessageType
  | text
  | image
  | audio
  | video
  | document
  | location
  | contact
  | unknown
deriving DecidableEq, Repr

/-! ## RateLimiter (`app/utils/rate_limiter.py`) -/

/-- State of `RateLimiter.__init__`: quota, window, and the per-identifier
timestamp map (`defaultdict(list)` modelled as a total function that is `[]`
by default). -/
structure RateLimiter where
  max_requests : Nat
  window_seconds : ℚ
  requests : String → List ℚ

/-- `RateLimiter.is_allowed` (lines 21-46): prune the identifier's timestamps
to those strictly newer than `now - window_seconds` (and store the pruned
list), deny if at least `max_requests` remain, else append `now` and admit. -/
def RateLimiter.is_allowed (rl : RateLimiter) (identifier : String) (now : ℚ) :
    Bool × RateLimiter :=
  let pruned := (rl.requests identifier).filter
    (fun req_time => decide (now - rl.window_seconds < req_time))
  if rl.max_requests ≤ pruned.length then
    (false, { rl with requests := Function.update rl.requests identifier pruned })
  else
    (true, { rl with requests := Function.update rl.requests identifier (pruned ++ [now]) })

/-- Run the limiter over a sequence of `(identifier, now)` calls, recording
each call's verdict. -/
def RateLimiter.run : RateLimiter → List (String × ℚ) → List (String × ℚ × Bool)
  | _, [] => []
  | rl, (identifier, now) :: rest =>
    let step := rl.is_allowed identifier now
    (identifier, now, step.1) :: RateLimiter.run step.2 rest

/-- Timestamps of the admitted calls of one identifier in a run transcript. -/
def admittedTimes (identifier : String) (events : List (String × ℚ × Bool)) : List ℚ :=
  events.filterMap (fun e => if e.1 = identifier ∧ e.2.2 = true then some e.2.1 else none)

/-- Single-identifier step of `is_allowed`: the pruned list plus verdict. -/
def slideStep (max_requests : Nat) (window : ℚ) (times : List ℚ) (now : ℚ) :
    Bool × List ℚ :=
  let pruned := times.filter (fun req_time => decide (now - window < req_time))
  if max_requests ≤ pruned.length then (false, pruned) else (true, pruned ++ [now])

/-- Admitted timestamps of a single identifier's call sequence, starting from
stored timestamp list `times`. -/
def slideRun (max_requests : Nat) (window : ℚ) : List ℚ → List ℚ → List ℚ
  | _, [] => []
  | times, now :: rest =>
    let step := slideStep max_requests window times now
    (if step.1 then [now] else []) ++ slideRun max_requests window step.2 rest

/-- Number of timestamps strictly after `u`. -/
def countAfter (u : ℚ) (times : List ℚ) : Nat :=
  times.countP (fun s => decide (u < s))

/-- Number of timestamps in the trailing window `(t - window, t]`. -/
def windowCount (window t : ℚ) (times : List ℚ) : Nat :=
  times.countP (fun s => decide (t - window < s ∧ s ≤ t))

lemma countAfter_filter (u now window : ℚ) (l : List ℚ) (h : now - window ≤ u) :
    countAfter u (l.filter (fun req_time => decide (now - window < req_time)))
      = countAfter u l := by
  unfold countAfter
  rw [List.countP_filter]
  refine List.countP_congr (fun x _ => ?_)
  simp only [Bool.and_eq_true, decide_eq_true_eq]
  exact ⟨fun hx => hx.1, fun hx => ⟨hx, lt_of_le_of_lt h hx⟩⟩

lemma countAfter_eq_filter_length (u : ℚ) (l : List ℚ) :
    countAfter u l = (l.filter (fun req_time => decide (u < req_time))).length := by
  unfold countAfter
  exact List.countP_eq_length_filter _ _

lemma slideRun_window_bound (N : Nat) (W : ℚ) (times : List ℚ) :
    ∀ (l A : List ℚ) (m : ℚ),
      (∀ s ∈ A, s ≤ m) →
      (∀ u, m - W ≤ u → countAfter u A = countAfter u l) →
      (∀ t, windowCount W t A ≤ N) →
      times.Sorted (· ≤ ·) →
      (∀ x ∈ times, m ≤ x) →
      ∀ t, windowCount W t (A ++ slideRun N W l times) ≤ N := by
  induction times with
  | nil =>
    intro l A m _ _ h3 _ _ t
    simpa [slideRun, windowCount, List.countP_append] using h3 t
  | cons now rest ih =>
    intro l A m h1 h2 h3 hsort hge t
    have hmnow : m ≤ now := hge now (by simp)
    have hrest_sorted : rest.Sorted (· ≤ ·) := hsort.of_cons
    have hrest_ge : ∀ x ∈ rest, now ≤ x := List.rel_of_sorted_cons hsort
    have hkey : countAfter (now - W) A
        = (l.filter (fun req_time => decide (now - W < req_time))).length := by
      rw [h2 (now - W) (by linarith), countAfter_eq_filter_length]
    by_cases hcase :
        N ≤ (l.filter (fun req_time => decide (now - W < req_time))).length
    · -- denied: state becomes the pruned list, nothing admitted
      have hstep : slideStep N W l now
          = (false, l.filter (fun req_time => decide (now - W < req_time))) := by
        unfold slideStep
        simp [hcase]
      have h2' : ∀ u, now - W ≤ u →
          countAfter u A
            = countAfter u (l.filter (fun req_time => decide (now - W < req_time))) := by
        intro u hu
        rw [countAfter_filter u now W l hu]
        exact h2 u (by linarith)
      have := ih (l.filter (fun req_time => decide (now - W < req_time))) A now
        (fun s hs => le_trans (h1 s hs) hmnow) h2' h3 hrest_sorted hrest_ge t
      simpa [slideRun, hstep] using this
    · -- admitted: `now` is appended to both state and admitted list
      push_neg at hcase
      have hstep : slideStep N W l now
          = (true, l.filter (fun req_time => decide (now - W < req_time)) ++ [now]) := by
        unfold slideStep
        simp [Nat.not_le.mpr hcase]
      have h1' : ∀ s ∈ A ++ [now], s ≤ now := by
        intro s hs
        rcases List.mem_append.mp hs with hs | hs
        · exact le_trans (h1 s hs) hmnow
        · simp only [List.mem_singleton] at hs
          exact le_of_eq hs
      have h2' : ∀ u, now - W ≤ u →
          countAfter u (A ++ [now])
            = countAfter u
                (l.filter (fun req_time => decide (now - W < req_time)) ++ [now]) := by
        intro u hu
        unfold countAfter
        rw [List.countP_append, List.countP_append]
        have hA : countAfter u A
            = countAfter u (l.filter (fun req_time => decide (now - W < req_time))) := by
          rw [countAfter_filter u now W l hu]
          exact h2 u (by linarith)
        unfold countAfter at hA
        omega
      have h3' : ∀ t', windowCount W t' (A ++ [now]) ≤ N := by
        intro t'
        unfold windowCount
        rw [List.countP_append]
        by_cases hin : t' - W < now ∧ now ≤ t'
        · have hsingle :
              List.countP (fun s => decide (t' - W < s ∧ s ≤ t')) [now] ≤ 1 :=
            List.countP_le_length _
          have hmono : List.countP (fun s => decide (t' - W < s ∧ s ≤ t')) A
              ≤ countAfter (now - W) A := by
            unfold countAfter
            refine List.countP_mono_left (fun x _ hx => ?_)
            simp only [decide_eq_true_eq] at hx ⊢
            have : now - W ≤ t' - W := by linarith [hin.2]
            exact lt_of_le_of_lt this hx.1
          have : List.countP (fun s => decide (t' - W < s ∧ s ≤ t')) A < N :=
            lt_of_le_of_lt (le_trans hmono (le_of_eq hkey)) hcase
          omega
        · have hzero :
              List.countP (fun s => decide (t' - W < s ∧ s ≤ t')) [now] = 0 := by
            simp only [List.countP_eq_zero, List.mem_singleton]
            intro a ha
            subst ha
            simpa using hin
          have := h3 t'
          unfold windowCount at this
          omega
      have hmain := ih (l.filter (fun req_time => decide (now - W < req_time)) ++ [now])
        (A ++ [now]) now h1' h2' h3' hrest_sorted hrest_ge t
      have hshape : A ++ slideRun N W l (now :: rest)
          = (A ++ [now]) ++ slideRun N W
              (l.filter (fun req_time => decide (now - W < req_time)) ++ [now]) rest := by
        simp [slideRun, hstep]
      rw [hshape]
      exact hmain

lemma is_allowed_eq (rl : RateLimiter) (identifier : String) (now : ℚ) :
    rl.is_allowed identifier now
      = ((slideStep rl.max_requests rl.window_seconds (rl.requests identifier) now).1,
         { rl with requests := (Function.update rl.requests identifier
             (slideStep rl.max_requests rl.window_seconds (rl.requests identifier) now).2) }) := by
  unfold RateLimiter.is_allowed slideStep
  by_cases h : rl.max_requests ≤
      ((rl.requests identifier).filter
        (fun req_time => decide (now - rl.window_seconds < req_time))).length
  · simp [h]
  · simp [h]

lemma run_admitted_eq (identifier : String) :
    ∀ (calls : List (String × ℚ)) (rl : RateLimiter),
      admittedTimes identifier (RateLimiter.run rl calls)
        = slideRun rl.max_requests rl.window_seconds (rl.requests identifier)
            (calls.filterMap (fun c => if c.1 = identifier then some c.2 else none))
  | [], rl => by simp [RateLimiter.run, admittedTimes, slideRun]
  | (i, now) :: rest, rl => by
    have ihr := run_admitted_eq identifier rest (rl.is_allowed i now).2
    by_cases hi : i = identifier
    · subst hi
      rw [is_allowed_eq] at ihr
      simp only [Function.update_same] at ihr
      by_cases hok :
          (slideStep rl.max_requests rl.window_seconds (rl.requests i) now).1 = true
      · simp [RateLimiter.run, admittedTimes, List.filterMap_cons, is_allowed_eq,
          slideRun, hok, ihr, admittedTimes] at ihr ⊢
        exact ihr
      · simp [RateLimiter.run, admittedTimes, List.filterMap_cons, is_allowed_eq,
          slideRun, hok, admittedTimes] at ihr ⊢
        exact ihr
    · have hne : identifier ≠ i := fun h => hi h.symm
      rw [is_allowed_eq] at ihr
      simp only [Function.update_noteq hne] at ihr
      simp [RateLimiter.run, admittedTimes, List.filterMap_cons, hi, is_allowed_eq,
        admittedTimes] at ihr ⊢
      exact ihr

lemma proj_sublist (identifier : String) :
    ∀ calls : List (String × ℚ),
      ((calls.filterMap (fun c => if c.1 = identifier then some c.2 else none)).Sublist
        (calls.map Prod.snd))
  | [] => List.Sublist.refl _
  | (i, t) :: rest => by
    by_cases h : i = identifier
    · simpa [List.filterMap_cons, h] using
        List.Sublist.cons₂ t (proj_sublist identifier rest)
    · simpa [List.filterMap_cons, h] using
        List.Sublist.cons t (proj_sublist identifier rest)

/-- C1: `RateLimiter.is_allowed` first discards the sender's recorded
timestamps that are not strictly newer than `now - window_seconds` (storing
the pruned list), denies — recording no new timestamp — when at least
`max_requests` timestamps remain, and otherwise records `now` and admits;
consequently, starting from a fresh limiter and a chronologically ordered
call sequence, for every sender the number of admitted requests whose
timestamps lie in any trailing window of `window_seconds` never exceeds
`max_requests`. -/
theorem claim1_rate_limiter_sliding_window :
    (∀ (rl : RateLimiter) (identifier : String) (now : ℚ),
      (rl.max_requests ≤
          ((rl.requests identifier).filter
            (fun req_time => decide (now - rl.window_seconds < req_time))).length →
        rl.is_allowed identifier now
          = (false, { rl with requests := (Function.update rl.requests identifier
              ((rl.requests identifier).filter
                (fun req_time => decide (now - rl.window_seconds < req_time)))) }))
      ∧ (((rl.requests identifier).filter
            (fun req_time => decide (now - rl.window_seconds < req_time))).length
            < rl.max_requests →
        rl.is_allowed identifier now
          = (true, { rl with requests := (Function.update rl.requests identifier
              ((rl.requests identifier).filter
                (fun req_time => decide (now - rl.window_seconds < req_time)) ++ [now])) })))
    ∧ ∀ (rl : RateLimiter) (calls : List (String × ℚ)),
        (∀ identifier, rl.requests identifier = []) →
        (calls.map Prod.snd).Sorted (· ≤ ·) →
        ∀ identifier t,
          windowCount rl.window_seconds t (admittedTimes identifier (rl.run calls))
            ≤ rl.max_requests := by
  constructor
  · intro rl identifier now
    constructor
    · intro h
      unfold RateLimiter.is_allowed
      simp [h]
    · intro h
      unfold RateLimiter.is_allowed
      simp [Nat.not_le.mpr h]
  · intro rl calls hfresh hsort identifier t
    rw [run_admitted_eq, hfresh identifier]
    have hsublist := proj_sublist identifier calls
    have hsorted : (calls.filterMap
        (fun c => if c.1 = identifier then some c.2 else none)).Sorted (· ≤ ·) :=
      List.Pairwise.sublist hsublist hsort
    cases hproj : calls.filterMap (fun c => if c.1 = identifier then some c.2 else none) with
    | nil => simp [slideRun, windowCount]
    | cons m0 restT =>
      rw [hproj] at hsorted
      have := slideRun_window_bound rl.max_requests rl.window_seconds (m0 :: restT) [] [] m0
        (by intro s hs; simp at hs)
        (fun u _ => rfl)
        (by intro t'; simp [windowCount])
        hsorted
        (by intro x hx
            rcases List.mem_cons.mp hx with h | h
            · exact le_of_eq h.symm
            · exact List.rel_of_sorted_cons hsorted x h)
        t
      simpa using this

/-- Witness for C1 at a concrete limiter (quota 2, window 10) and call
sequence. -/
theorem claim1_rate_limiter_sliding_window_witness :
    (∀ identifier, (RateLimiter.mk 2 10 (fun _ => [])).requests identifier = []) ∧
    (([("+90", (0:ℚ)), ("+90", 1), ("+90", 2), ("+90", 11)].map Prod.snd).Sorted (· ≤ ·)) ∧
    windowCount 10 2
      (admittedTimes "+90"
        (RateLimiter.run (RateLimiter.mk 2 10 (fun _ => []))
          [("+90", (0:ℚ)), ("+90", 1), ("+90", 2), ("+90", 11)])) ≤ 2 :=
  ⟨fun _ => rfl, by decide,
    claim1_rate_limiter_sliding_window.2 (RateLimiter.mk 2 10 (fun _ => []))
      [("+90", (0:ℚ)), ("+90", 1), ("+90", 2), ("+90", 11)]
      (fun _ => rfl) (by decide) "+90" 2⟩

/-! ## Persisted messages and dedup (`app/models/crud.py`, webhook handlers) -/

/-- Which webhook handler ingested a record. Ghost provenance annotation: the
`messages` table itself has no provider column. -/
inductive Provider
  | twilio
  | meta
  | waha
deriving DecidableEq, Repr

/-- A persisted `Message` row restricted to the fields the dedup logic and the
duplicate-replacement flow read: direction and the provider message id stored
in the `twilio_message_sid` column (reused verbatim for WAHA and Meta ids).
`provider` is ghost provenance, invisible to the queries. -/
structure PMsg where
  provider : Provider
  direction : MessageDirection
  twilio_message_sid : Option String
deriving DecidableEq, Repr

/-- `MessageCRUD.get_message_by_sid` (crud.py lines 162-165): first row whose
`twilio_message_sid` column equals the given sid. The query has no provider
condition. -/
def get_message_by_sid (db : List PMsg) (message_sid : String) : Option PMsg :=
  db.find? (fun m => decide (m.twilio_message_sid = some message_sid))

/-- Dedup lookup performed by `process_waha_message` (waha_webhook.py 185-195). -/
def wahaDedupLookup (db : List PMsg) (message_id : String) : Option PMsg :=
  get_message_by_sid db message_id

/-- Dedup lookup performed by `process_meta_message` (meta_webhook.py 130-140). -/
def metaDedupLookup (db : List PMsg) (message_id : String) : Option PMsg :=
  get_message_by_sid db message_id

/-- The `db.delete(existing_message); db.commit()` step after the lookup:
remove the first row whose sid column matches (a no-op when none does). -/
def deleteBySid (db : List PMsg) (message_id : String) : List PMsg :=
  db.eraseP (fun m => decide (m.twilio_message_sid = some message_id))

/-- One Meta webhook delivery at the persistence level (`process_meta_message`,
meta_webhook.py 122-203, followed by `process_incoming_message` and
`_send_response`): the prior row with this sid is deleted first; then the
rate limiter may silently drop the event, then the whitelist gate may
short-circuit (neither creates an incoming row); otherwise an incoming row
with this sid is inserted and, when the reply send returns a truthy id, an
outgoing row with that id is appended. -/
def process_meta_delivery (db : List PMsg) (message_id : String)
    (rateAllowed whitelisted : Bool) (sendSid : Option String) : List PMsg :=
  let db1 := deleteBySid db message_id
  if rateAllowed = false then db1
  else if whitelisted = false then db1
  else
    let db2 := db1 ++ [⟨Provider.meta, MessageDirection.incoming, some message_id⟩]
    match sendSid with
    | some s =>
        if s ≠ "" then db2 ++ [⟨Provider.meta, MessageDirection.outgoing, some s⟩]
        else db2
    | none => db2

/-- One WAHA webhook delivery at the persistence level (`process_waha_message`,
waha_webhook.py 168-255): the prior row with this sid is deleted (185-195)
and the rate limiter may then silently drop the event (235-237); when it does
not, the processor call at line 243 passes the keyword argument
`waha_chat_id`, which `process_incoming_message` (message_processor.py 22-31)
does not accept — the resulting `TypeError` is swallowed by the handler's
blanket `except` (254-255). So in this source revision the WAHA path never
reaches the whitelist gate and never persists any row: on either branch the
delivery only deletes. -/
def process_waha_delivery (db : List PMsg) (message_id : String)
    (rateAllowed : Bool) : List PMsg :=
  let db1 := deleteBySid db message_id
  if rateAllowed = false then db1
  else db1

/-- Number of persisted rows carrying a given provider message id (any
direction, matching the lookup's keying). -/
def countSid (db : List PMsg) (message_id : String) : Nat :=
  db.countP (fun m => decide (m.twilio_message_sid = some message_id))

lemma countP_eraseP_of_le_one {α : Type} (p : α → Bool) :
    ∀ l : List α, l.countP p ≤ 1 → (l.eraseP p).countP p = 0
  | [], _ => rfl
  | a :: t, h => by
    by_cases hpa : p a = true
    · rw [List.eraseP_cons_of_pos hpa]
      rw [List.countP_cons_of_pos _ _ hpa] at h
      have : t.countP p = 0 := by omega
      exact this
    · rw [List.eraseP_cons_of_neg hpa, List.countP_cons_of_neg _ _ hpa]
      rw [List.countP_cons_of_neg _ _ hpa] at h
      exact countP_eraseP_of_le_one p t h

/-- Counterexample to C3: a row persisted by the Meta handler for message id
"ABC123" is returned by the WAHA handler's dedup lookup for the same literal
id — the event arriving through the self-hosted gateway IS treated as a
duplicate of the cloud-platform record, whose row its dedup step then
deletes. -/
theorem claim3_counterexample :
    process_meta_delivery [] "ABC123" true true none
      = [⟨Provider.meta, MessageDirection.incoming, some "ABC123"⟩]
    ∧ wahaDedupLookup (process_meta_delivery [] "ABC123" true true none) "ABC123"
      = some ⟨Provider.meta, MessageDirection.incoming, some "ABC123"⟩
    ∧ process_waha_delivery (process_meta_delivery [] "ABC123" true true none)
        "ABC123" true = [] :=
  ⟨rfl, rfl, rfl⟩

/-- C3 amended: the dedup lookup is keyed by the literal provider message
identifier alone and is NOT scoped per provider — the WAHA and Meta handlers
run the identical query, and the query result is unchanged (up to the ghost
provenance tag) when every stored row's ingesting provider is relabelled. -/
theorem claim3_dedup_unscoped (db : List PMsg) (message_id : String) :
    wahaDedupLookup db message_id = metaDedupLookup db message_id
    ∧ ∀ p : Provider,
        get_message_by_sid (db.map (fun m => { m with provider := p })) message_id
          = (get_message_by_sid db message_id).map (fun m => { m with provider := p }) := by
  refine ⟨rfl, fun p => ?_⟩
  induction db with
  | nil => rfl
  | cons a t ih =>
    by_cases h : a.twilio_message_sid = some message_id
    · simp [get_message_by_sid, List.find?_cons, h]
    · simpa [get_message_by_sid, List.find?_cons, h] using ih

/-- Counterexample to C4: the same id "MSG1" delivered twice in immediate
succession through the Meta handler; the second delivery is dropped by the
rate limiter AFTER the dedup step already deleted the first record, so the
second delivery does not replace the first's record — nothing with that id
survives. On the WAHA handler the claim fails even sooner: a delivery never
persists anything, so a first delivery leaves no record for a redelivery to
replace. -/
theorem claim4_counterexample :
    countSid (process_meta_delivery [] "MSG1" true true none) "MSG1" = 1
    ∧ countSid
        (process_meta_delivery (process_meta_delivery [] "MSG1" true true none)
          "MSG1" false true none) "MSG1" = 0
    ∧ countSid (process_waha_delivery [] "MSG1" true) "MSG1" = 0 :=
  ⟨rfl, rfl, rfl⟩

/-- C4 amended: on every delivery the prior persisted row with the delivered
id is discarded before re-processing, and at no point do two persisted rows
with that id coexist (starting from a db satisfying the schema's uniqueness
of `twilio_message_sid`). On the Meta handler, a delivery that passes the
rate limiter and the whitelist gate inserts a fresh incoming row replacing
the prior one, nothing else with that id surviving; a delivery dropped by
either gate deletes without replacing. The WAHA handler in this source
revision never persists anything — its delivery reduces to the dedup delete
alone — so a WAHA redelivery deletes the prior record without replacing it. -/
theorem claim4_readmit_replaces (db : List PMsg)
    (message_id : String) (rateAllowed whitelisted : Bool) (sendSid : Option String)
    (h1 : countSid db message_id ≤ 1)
    (h2 : ∀ s, sendSid = some s → s ≠ message_id) :
    countSid (deleteBySid db message_id) message_id = 0
    ∧ countSid (process_meta_delivery db message_id rateAllowed whitelisted sendSid)
        message_id ≤ 1
    ∧ (rateAllowed = true → whitelisted = true →
        ∃ tail,
          process_meta_delivery db message_id rateAllowed whitelisted sendSid
            = (deleteBySid db message_id
                ++ [⟨Provider.meta, MessageDirection.incoming, some message_id⟩]) ++ tail
          ∧ ∀ m ∈ tail, m.twilio_message_sid ≠ some message_id)
    ∧ process_waha_delivery db message_id rateAllowed = deleteBySid db message_id := by
  have hz : countSid (deleteBySid db message_id) message_id = 0 :=
    countP_eraseP_of_le_one _ db h1
  refine ⟨hz, ?_, ?_, ?_⟩
  · by_cases hra : rateAllowed = false
    · have : process_meta_delivery db message_id rateAllowed whitelisted sendSid
          = deleteBySid db message_id := by simp [process_meta_delivery, hra]
      rw [this]
      omega
    · by_cases hwl : whitelisted = false
      · have : process_meta_delivery db message_id rateAllowed whitelisted sendSid
            = deleteBySid db message_id := by simp [process_meta_delivery, hra, hwl]
        rw [this]
        omega
      · unfold countSid at hz ⊢
        cases sendSid with
        | none =>
          simp only [process_meta_delivery, hra, hwl, if_false, ite_false]
          simp [List.countP_append, List.countP_cons, hz]
        | some s =>
          have hs : s ≠ message_id := h2 s rfl
          by_cases hse : s = ""
          · simp only [process_meta_delivery, hra, hwl, if_false, ite_false, hse]
            simp [List.countP_append, List.countP_cons, hz]
          · simp only [process_meta_delivery, hra, hwl, if_false, ite_false]
            simp [hse, List.countP_append, List.countP_cons, hz, hs]
  · intro hra hwl
    subst hra
    subst hwl
    cases sendSid with
    | none =>
      refine ⟨[], ?_, by simp⟩
      simp [process_meta_delivery]
    | some s =>
      have hs : s ≠ message_id := h2 s rfl
      by_cases hse : s = ""
      · refine ⟨[], ?_, by simp⟩
        simp [process_meta_delivery, hse]
      · refine ⟨[⟨Provider.meta, MessageDirection.outgoing, some s⟩], ?_, ?_⟩
        · simp [process_meta_delivery, hse]
        · intro m hm
          simp only [List.mem_singleton] at hm
          subst hm
          simp [hs]
  · by_cases hra : rateAllowed = false <;> simp [process_waha_delivery, hra]

/-- Witness for C4's amended theorem at a concrete one-row database. -/
theorem claim4_readmit_replaces_witness :
    countSid [⟨Provider.meta, MessageDirection.incoming, some "MSG1"⟩] "MSG1" ≤ 1
    ∧ countSid
        (process_meta_delivery [⟨Provider.meta, MessageDirection.incoming, some "MSG1"⟩]
          "MSG1" true true (some "OUT9")) "MSG1" ≤ 1 :=
  ⟨by decide,
    (claim4_readmit_replaces
      [⟨Provider.meta, MessageDirection.incoming, some "MSG1"⟩]
      "MSG1" true true (some "OUT9")
      (by decide) (fun s h => by cases h; decide)).2.1⟩

/-! ## Webhook transport guards (`app/api/webhook.py`, `app/api/waha_webhook.py`) -/

/-- Python truthiness of an optional header string (absent and empty are
falsy). -/
def truthyOpt : Option String → Bool
  | none => false
  | some s => decide (s ≠ "")

/-- Outcome of a webhook handler at the transport boundary: either rejected
with an HTTP status before any processing (the constructor carries no
processing result — nothing is parsed or persisted), or handed to processing,
whose result has type `α`. -/
inductive HandlerOutcome (α : Type)
  | rejected (status : Nat)
  | processed (result : α)
deriving DecidableEq, Repr

/-- Guard structure of `waha_webhook_handler` (waha_webhook.py 120-135): the
API-key comparison `if settings.waha_api_key and x_api_key != settings.waha_api_key`
is the handler's first statement, before the body is even parsed; on mismatch
it raises HTTP 403. -/
def waha_webhook_handler {α : Type} (waha_api_key : String) (x_api_key : Option String)
    (processing : α) : HandlerOutcome α :=
  if waha_api_key ≠ "" ∧ x_api_key ≠ some waha_api_key then .rejected 403
  else .processed processing

/-- Guard structure of the Twilio `webhook_handler` (webhook.py 62-99):
signature verification runs only when the `X-Twilio-Signature` header is
truthy AND `settings.app_env == "production"`; only then does an invalid
signature raise HTTP 403. `signature_valid` is the oracle result of
`verify_twilio_signature`. -/
def webhook_handler {α : Type} (app_env : String) (twilio_signature : Option String)
    (signature_valid : Bool) (processing : α) : HandlerOutcome α :=
  if truthyOpt twilio_signature = true ∧ app_env = "production" then
    if signature_valid = false then .rejected 403 else .processed processing
  else .processed processing

/-- Counterexample to C8: with the default configuration `app_env =
"development"`, a request carrying a signature that fails verification is
fully processed rather than rejected — verification is not performed for
every inbound POST request. -/
theorem claim8_counterexample :
    webhook_handler "development" (some "bogus-signature") false (0 : Nat)
      = HandlerOutcome.processed 0 := by
  simp [webhook_handler, truthyOpt]

/-- C8 amended: whenever verification is enabled (self-hosted gateway: an API
key is configured; signed-webhook provider: production environment and a
truthy signature header), it runs before any parsing or processing, and a
mismatch/failed verification is rejected with HTTP 403, the outcome carrying
no processing result (nothing persisted). Otherwise the request is processed
without verification. -/
theorem claim8_auth_reject {α : Type} (waha_api_key : String) (x_api_key : Option String)
    (app_env : String) (twilio_signature : Option String) (signature_valid : Bool)
    (p q : α) :
    (waha_api_key ≠ "" → x_api_key ≠ some waha_api_key →
      waha_webhook_handler waha_api_key x_api_key p = HandlerOutcome.rejected 403)
    ∧ (truthyOpt twilio_signature = true → app_env = "production" →
        signature_valid = false →
      webhook_handler app_env twilio_signature signature_valid q
        = HandlerOutcome.rejected 403) := by
  constructor
  · intro hk hx
    simp [waha_webhook_handler, hk, hx]
  · intro hs he hv
    simp [webhook_handler, hs, he, hv]

/-- Witness for C8's amended theorem at concrete header values. -/
theorem claim8_auth_reject_witness :
    (("secret" : String) ≠ "" ∧ (some "wrong" : Option String) ≠ some "secret"
      ∧ truthyOpt (some "sig") = true ∧ (false : Bool) = false)
    ∧ waha_webhook_handler "secret" (some "wrong") (0 : Nat) = HandlerOutcome.rejected 403
    ∧ webhook_handler "production" (some "sig") false (0 : Nat) = HandlerOutcome.rejected 403 :=
  ⟨⟨by decide, by decide, by decide, rfl⟩,
    (claim8_auth_reject "secret" (some "wrong") "production" (some "sig") false 0 0).1
      (by decide) (by decide),
    (claim8_auth_reject "secret" (some "wrong") "production" (some "sig") false 0 0).2
      (by decide) rfl rfl⟩

/-! ## WAHA outbound send (`app/services/waha_service.py`) -/

/-- Observable steps of the WAHA anti-spam send sequence. -/
inductive SendStep
  | seen
  | startTyping
  | sleep (delay : ℚ)
  | stopTyping
  | deliver
deriving DecidableEq, Repr

/-- `WAHAService.send_seen` (waha_service.py 46-84): catches every exception
and returns `False`; a status other than 200/201 also returns `False`. The
argument is the outcome of the inner HTTP call. -/
def send_seen_ok (httpResult : Except String Nat) : Bool :=
  match httpResult with
  | .error _ => false
  | .ok code => decide (code = 200 ∨ code = 201)

/-- `WAHAService.start_typing` (waha_service.py 86-124), same shape. -/
def start_typing_ok (httpResult : Except String Nat) : Bool :=
  match httpResult with
  | .error _ => false
  | .ok code => decide (code = 200 ∨ code = 201)

/-- `WAHAService.stop_typing` (waha_service.py 126-164), same shape. -/
def stop_typing_ok (httpResult : Except String Nat) : Bool :=
  match httpResult with
  | .error _ => false
  | .ok code => decide (code = 200 ∨ code = 201)

/-- Typing delay computation (waha_service.py 204-209):
`max(1.0, min(5.0, len(message) * u))` where `u` is the per-send sample of
`random.uniform(0.05, 0.1)`. -/
def typing_delay (message_length : Nat) (u : ℚ) : ℚ :=
  max 1 (min 5 ((message_length : ℚ) * u))

/-- `WAHAService.send_message` (waha_service.py 166-288): seen → start typing
→ sleep(typing delay) → stop typing → deliver. The three helper results are
computed and discarded (each helper swallows its own failures), and only the
final delivery call determines the returned message id (exception or non-2xx
status → `none`, else the response's optional `id`). -/
def waha_send_message (seenHttp startHttp stopHttp : Except String Nat) (u : ℚ)
    (deliverHttp : Except String (Nat × Option String)) (message : String) :
    List SendStep × Option String :=
  let _seenOk := send_seen_ok seenHttp
  let _startOk := start_typing_ok startHttp
  let delay := typing_delay message.length u
  let _stopOk := stop_typing_ok stopHttp
  let trace := [SendStep.seen, SendStep.startTyping, SendStep.sleep delay,
                SendStep.stopTyping, SendStep.deliver]
  match deliverHttp with
  | .error _ => (trace, none)
  | .ok (code, mid) =>
      if code = 200 ∨ code = 201 then (trace, mid) else (trace, none)

/-- C6: every WAHA send performs exactly mark-as-seen, start-typing, sleep,
stop-typing, delivery, in that order — for every outcome of the three
best-effort pre-delivery steps (including exceptions and error statuses) and
of the delivery call itself, so no pre-delivery failure aborts the sequence
or prevents the delivery attempt. -/
theorem claim6_waha_send_sequence (seenHttp startHttp stopHttp : Except String Nat)
    (u : ℚ) (deliverHttp : Except String (Nat × Option String)) (message : String) :
    (waha_send_message seenHttp startHttp stopHttp u deliverHttp message).1
      = [SendStep.seen, SendStep.startTyping,
         SendStep.sleep (typing_delay message.length u),
         SendStep.stopTyping, SendStep.deliver] := by
  unfold waha_send_message
  rcases deliverHttp with e | ⟨code, mid⟩
  · rfl
  · by_cases h : code = 200 ∨ code = 201 <;> simp [h]

/-- C7: the typing delay equals `clamp(length × u, 1.0, 5.0)` for the sampled
`u`; for every `u ∈ [0.05, 0.1]`, a length-40 reply yields a delay in
`[1.0, 4.0]` and a length-4 reply yields exactly `1.0`. -/
theorem claim7_typing_delay (u : ℚ) (h1 : 1/20 ≤ u) (h2 : u ≤ 1/10) :
    (∀ L : Nat, typing_delay L u = max 1 (min 5 ((L : ℚ) * u)))
    ∧ (1 ≤ typing_delay 40 u ∧ typing_delay 40 u ≤ 4)
    ∧ typing_delay 4 u = 1 := by
  refine ⟨fun L => rfl, ⟨?_, ?_⟩, ?_⟩
  · exact le_max_left 1 _
  · unfold typing_delay
    have h40 : ((40 : Nat) : ℚ) * u ≤ 4 := by push_cast; linarith
    have hmin : min 5 (((40 : Nat) : ℚ) * u) ≤ 4 := le_trans (min_le_right _ _) h40
    exact max_le (by norm_num) hmin
  · unfold typing_delay
    have h4 : ((4 : Nat) : ℚ) * u ≤ 1 := by push_cast; linarith
    have hmin : min 5 (((4 : Nat) : ℚ) * u) ≤ 1 := le_trans (min_le_right _ _) h4
    exact max_eq_left hmin

/-- Witness for C7 at the concrete sample `u = 3/40 = 0.075`. -/
theorem claim7_typing_delay_witness :
    ((1 : ℚ)/20 ≤ 3/40 ∧ (3 : ℚ)/40 ≤ 1/10)
    ∧ (1 ≤ typing_delay 40 (3/40) ∧ typing_delay 40 (3/40) ≤ 4)
    ∧ typing_delay 4 (3/40) = 1 :=
  ⟨⟨by norm_num, by norm_num⟩,
   (claim7_typing_delay (3/40) (by norm_num) (by norm_num)).2.1,
   (claim7_typing_delay (3/40) (by norm_num) (by norm_num)).2.2⟩

/-! ## Message processor (`app/services/message_processor.py`) -/

/-- A chat message dict `{"role": ..., "content": ...}` as passed to the AI
collaborator. -/
structure ChatEntry where
  role : String
  content : String
deriving DecidableEq, Repr

/-- A persisted conversation message as read back by the history query:
direction plus text content (`None` is merged with `""`; both are falsy in
the Python `if msg.content:` check). -/
structure StoredMsg where
  direction : MessageDirection
  content : String
deriving DecidableEq, Repr

/-- `MessageCRUD.get_conversation_history` (crud.py 151-160): the `limit`
most recent messages of the conversation, newest first. `msgs` is the
conversation's full message list in chronological `created_at` order. -/
def get_conversation_history (msgs : List StoredMsg) (limit : Nat) : List StoredMsg :=
  msgs.reverse.take limit

/-- Role inference (message_processor.py 152): Incoming maps to "user",
anything else to "assistant". -/
def roleOf (d : MessageDirection) : String :=
  if d = MessageDirection.incoming then "user" else "assistant"

/-- Context assembly loop of `_process_text_message` (message_processor.py
148-156): iterate the newest-first history in reverse (chronological) order,
skipping messages with falsy content, inferring roles. -/
def buildConversationContext (history : List StoredMsg) : List ChatEntry :=
  (history.reverse.filter (fun m => decide (m.content ≠ ""))).map
    (fun m => ⟨roleOf m.direction, m.content⟩)

/-- `OpenAIService.generate_response` message assembly (openai_service.py
69-70): the passed history followed by the new user message as last entry
(the system instruction is prepended later, inside the backend-specific
call). -/
def generate_response_messages (conversation_history : List ChatEntry)
    (user_message : String) : List ChatEntry :=
  conversation_history ++ [⟨"user", user_message⟩]

/-- The full user/assistant context handed to the AI collaborator by the text
path (message_processor.py 158-162): the assembled context minus its last
element (`conversation_context[:-1]`, intended to exclude the just-stored
current message), with the new user text appended by `generate_response`. -/
def text_ai_context (msgs : List StoredMsg) (limit : Nat) (message_text : String) :
    List ChatEntry :=
  generate_response_messages
    ((buildConversationContext (get_conversation_history msgs limit)).dropLast)
    message_text

/-- C5's spec-side context, following the claim's words: the `limit` most
recent persisted messages of the conversation in chronological order with
inferred roles, excluding the just-stored current message (the newest one),
followed by the new user text as last entry. -/
def spec_text_ai_context (msgs : List StoredMsg) (limit : Nat) (message_text : String) :
    List ChatEntry :=
  ((msgs.reverse.take limit).reverse.dropLast).map
    (fun m => ⟨roleOf m.direction, m.content⟩) ++ [⟨"user", message_text⟩]

/-- Observable collaborator calls and persistence operations of one
pipeline run, in order. -/
inductive Effect
  | userCreated (phone : String)
  | conversationResolved
  | incomingMessageCreated (content : String)
  | aiGenerateCall (user_message : String) (history : List ChatEntry)
  | aiAnalyzeImageCall (url : Option String) (prompt : String)
  | aiTranscribeCall (path : String)
  | mediaDownloadCall (url : Option String)
  | cleanupCall (path : String)
  | contentUpdated (content : String)
  | markProcessed (error : Option String)
  | sendMessageCall (to_number : String) (body : String)
  | outgoingMessageCreated (content : String) (sid : String)
deriving DecidableEq, Repr

/-- Is this effect an AI-collaborator invocation (generate reply, describe
image, transcribe audio)? -/
def Effect.isAICall : Effect → Bool
  | .aiGenerateCall _ _ => true
  | .aiAnalyzeImageCall _ _ => true
  | .aiTranscribeCall _ => true
  | _ => false

/-- External collaborators as oracles: the AI calls may raise (`Except`),
media download and PDF extraction swallow their own failures (`Option`), and
the provider send returns an optional message id (`None` on failure). -/
structure Collaborators where
  generate_response : String → List ChatEntry → Except String (String × Nat × Nat)
  analyze_image : Option String → String → Except String (String × Nat × Nat)
  transcribe_audio : String → Except String String
  download_media : Option String → Option String
  extract_text_from_pdf : String → Option String
  send_message : String → String → Option String

/-- A persisted `users` row, restricted to what the gate reads. -/
structure UserRec where
  phone_number : String
  is_whitelisted : Bool
deriving DecidableEq, Repr

/-- `UserCRUD.get_or_create_user` (crud.py 31-37): an existing row is
returned unchanged — its whitelist flag is NOT refreshed from the current
configuration; a newly created row's flag is membership of the phone number
in the configured list. Returns the user and whether a row was created. -/
def get_or_create_user (existing : Option UserRec) (phone_number : String)
    (whitelisted_numbers : List String) : UserRec × Bool :=
  match existing with
  | some u => (u, false)
  | none => (⟨phone_number, whitelisted_numbers.contains phone_number⟩, true)

/-- Fixed reply of `_send_not_whitelisted_message` (message_processor.py
349-355). -/
def notWhitelistedMessage : String :=
  "Sorry, you are not authorized to use this bot. Please contact the administrator for access."

/-- Fixed reply of `_send_error_message` (message_processor.py 357-363). -/
def processingErrorMessage : String :=
  "Sorry, I encountered an error processing your message. Please try again later."

/-- Fixed reply for unhandled message kinds (message_processor.py 116). -/
def unsupportedTypeMessage : String :=
  "Sorry, I cannot process this type of message yet."

/-- Fixed reply for non-PDF documents (message_processor.py 315). -/
def unsupportedDocumentMessage : String :=
  "I can only process PDF documents at the moment."

/-- Fixed reply when the document download fails (message_processor.py 286). -/
def downloadFailedDocumentMessage : String :=
  "Sorry, I couldn\x27t download the document."

/-- `_process_text_message` (message_processor.py 133-183): fetch history,
assemble the context, call the AI collaborator with the new text and the
context minus its last element; on success mark the message processed with
the response, on exception record the error and re-raise. `msgs` is the
conversation's persisted message list (chronological) including the
just-stored current message. -/
def process_text_message (c : Collaborators) (msgs : List StoredMsg) (limit : Nat)
    (message_text : String) : List Effect × Except String String :=
  let callHistory :=
    (buildConversationContext (get_conversation_history msgs limit)).dropLast
  match c.generate_response message_text callHistory with
  | .ok (response_text, _, _) =>
      ([.aiGenerateCall message_text callHistory, .markProcessed none],
       .ok response_text)
  | .error e =>
      ([.aiGenerateCall message_text callHistory, .markProcessed (some e)],
       .error e)

/-- `_process_image_message` (message_processor.py 185-229): download, fixed
reply on failure; otherwise describe the image (caption as steering text when
truthy), clean up only after a successful analysis, and turn an analysis
exception into an error annotation plus apology. -/
def process_image_message (c : Collaborators) (media_url : Option String)
    (caption : String) : List Effect × String :=
  match c.download_media media_url with
  | none =>
      ([.mediaDownloadCall media_url], "Sorry, I couldn\x27t download the image.")
  | some image_path =>
    let prompt := if caption ≠ "" then "Describe this image. " ++ caption
                  else "Describe this image in detail."
    match c.analyze_image media_url prompt with
    | .ok (analysis, _, _) =>
        ([.mediaDownloadCall media_url, .aiAnalyzeImageCall media_url prompt,
          .cleanupCall image_path, .markProcessed none], analysis)
    | .error e =>
        ([.mediaDownloadCall media_url, .aiAnalyzeImageCall media_url prompt,
          .markProcessed (some e)],
         "Sorry, I encountered an error analyzing the image.")

/-- `MessageCRUD.update_message(..., content=transcription)` applied to the
just-stored message, which is the last row of the conversation list. -/
def updateLastContent : List StoredMsg → String → List StoredMsg
  | [], _ => []
  | [m], content => [{ m with content := content }]
  | m :: rest, content => m :: updateLastContent rest content

/-- `_process_audio_message` (message_processor.py 231-270): download,
transcribe, clean up, store the transcription as the message content, then
run the text path on the transcription; the reply prefixes the transcription.
An exception anywhere (including one re-raised by the text path) is recorded
and yields the audio apology. -/
def process_audio_message (c : Collaborators) (msgs : List StoredMsg) (limit : Nat)
    (media_url : Option String) : List Effect × String :=
  match c.download_media media_url with
  | none =>
      ([.mediaDownloadCall media_url], "Sorry, I couldn\x27t download the audio.")
  | some audio_path =>
    match c.transcribe_audio audio_path with
    | .error e =>
        ([.mediaDownloadCall media_url, .aiTranscribeCall audio_path,
          .markProcessed (some e)],
         "Sorry, I encountered an error processing the audio.")
    | .ok transcription =>
        let inner := process_text_message c (updateLastContent msgs transcription)
          limit transcription
        match inner.2 with
        | .ok response_text =>
            ([.mediaDownloadCall media_url, .aiTranscribeCall audio_path,
              .cleanupCall audio_path, .contentUpdated transcription] ++ inner.1,
             "I heard: \x27" ++ transcription ++ "\x27\n\n" ++ response_text)
        | .error e =>
            ([.mediaDownloadCall media_url, .aiTranscribeCall audio_path,
              .cleanupCall audio_path, .contentUpdated transcription] ++ inner.1
              ++ [.markProcessed (some e)],
             "Sorry, I encountered an error processing the audio.")

/-- `_process_document_message` (message_processor.py 272-324): download
(fixed reply on failure); for `application/pdf` extract text (falsy result →
fixed reply), summarize the first 3000 characters through the AI
collaborator; any other declared content type is cleaned up and answered
with the fixed unsupported-document reply, with no AI call. -/
def process_document_message (c : Collaborators) (media_url : Option String)
    (content_type : Option String) : List Effect × String :=
  match c.download_media media_url with
  | none =>
      ([.mediaDownloadCall media_url], downloadFailedDocumentMessage)
  | some doc_path =>
    if content_type = some "application/pdf" then
      match c.extract_text_from_pdf doc_path with
      | none =>
          ([.mediaDownloadCall media_url, .cleanupCall doc_path],
           "Sorry, I couldn\x27t extract text from the PDF.")
      | some extracted_text =>
        if extracted_text = "" then
          ([.mediaDownloadCall media_url, .cleanupCall doc_path],
           "Sorry, I couldn\x27t extract text from the PDF.")
        else
          let prompt := "Summarize this document: " ++ extracted_text.take 3000
          match c.generate_response prompt [] with
          | .ok (response_text, _, _) =>
              ([.mediaDownloadCall media_url, .cleanupCall doc_path,
                .aiGenerateCall prompt [], .markProcessed none], response_text)
          | .error e =>
              ([.mediaDownloadCall media_url, .cleanupCall doc_path,
                .aiGenerateCall prompt [], .markProcessed (some e)],
               "Sorry, I encountered an error processing the document.")
    else
      ([.mediaDownloadCall media_url, .cleanupCall doc_path],
       unsupportedDocumentMessage)

/-- `_send_response` (message_processor.py 326-347): send via the provider;
persist an outgoing `Message` carrying the returned id only when that id is
truthy (Python `if message_sid:` — `None` and `""` are both falsy). -/
def send_response (c : Collaborators) (to_number : String) (message : String) :
    List Effect :=
  match c.send_message to_number message with
  | some message_sid =>
      if message_sid ≠ "" then
        [.sendMessageCall to_number message,
         .outgoingMessageCreated message message_sid]
      else [.sendMessageCall to_number message]
  | none => [.sendMessageCall to_number message]

/-- Ambient state of one pipeline run: the collaborators, the configured
whitelist, the sender's existing `users` row (if any), the conversation's
prior messages, and `settings.max_conversation_history`. -/
structure PipelineEnv where
  collaborators : Collaborators
  whitelisted_numbers : List String
  existing_user : Option UserRec
  prior_messages : List StoredMsg
  max_conversation_history : Nat

/-- `MessageProcessor.process_incoming_message` (message_processor.py
22-131): resolve/create the user; if the persisted whitelist flag is false,
send the fixed notice and stop (no conversation, no message row, no AI);
otherwise resolve the conversation, store the incoming message, dispatch on
the message type, and send the resulting reply (the text path's re-raised
exception reaches the top handler, which sends the generic error reply and
returns `False`). -/
def process_incoming_message (env : PipelineEnv) (from_number message_body : String)
    (message_type : MessageType) (media_url : Option String)
    (media_content_type : Option String) : List Effect × Bool :=
  let ur := get_or_create_user env.existing_user from_number env.whitelisted_numbers
  let userEff : List Effect := if ur.2 then [.userCreated from_number] else []
  if ur.1.is_whitelisted = false then
    (userEff ++ [.sendMessageCall from_number notWhitelistedMessage], false)
  else
    let stored := env.prior_messages ++ [⟨MessageDirection.incoming, message_body⟩]
    let baseEff := userEff
      ++ [.conversationResolved, .incomingMessageCreated message_body]
    let c := env.collaborators
    let limit := env.max_conversation_history
    match message_type with
    | .text =>
        let r := process_text_message c stored limit message_body
        match r.2 with
        | .ok response_text =>
            (baseEff ++ r.1 ++ send_response c from_number response_text, true)
        | .error _ =>
            (baseEff ++ r.1
              ++ [.sendMessageCall from_number processingErrorMessage], false)
    | .image =>
        let r := process_image_message c media_url message_body
        (baseEff ++ r.1 ++ send_response c from_number r.2, true)
    | .audio =>
        let r := process_audio_message c stored limit media_url
        (baseEff ++ r.1 ++ send_response c from_number r.2, true)
    | .document =>
        let r := process_document_message c media_url media_content_type
        (baseEff ++ r.1 ++ send_response c from_number r.2, true)
    | _ =>
        (baseEff ++ send_response c from_number unsupportedTypeMessage, true)

/-- Concrete collaborators for counterexample runs: the AI always answers,
media downloads fail, provider sends succeed. -/
def sampleCollaborators : Collaborators where
  generate_response := fun _ _ => .ok ("Merhaba! Size nasıl yardımcı olabilirim?", 10, 12)
  analyze_image := fun _ _ => .ok ("Bir fotoğraf.", 10, 12)
  transcribe_audio := fun _ => .ok "Bugün hava nasıl?"
  download_media := fun _ => none
  extract_text_from_pdf := fun _ => none
  send_message := fun _ _ => some "SM1"

/-- Concrete collaborators whose media download and PDF extraction succeed. -/
def downloadOkCollaborators : Collaborators where
  generate_response := fun _ _ => .ok ("Merhaba! Size nasıl yardımcı olabilirim?", 10, 12)
  analyze_image := fun _ _ => .ok ("Bir fotoğraf.", 10, 12)
  transcribe_audio := fun _ => .ok "Bugün hava nasıl?"
  download_media := fun _ => some "/data/temp_media/doc.bin"
  extract_text_from_pdf := fun _ => some "Belge metni."
  send_message := fun _ _ => some "SM2"

/-- Environment for the C2 counterexample: the sender has a persisted user
row with a stale `is_whitelisted = True`, while the currently configured
whitelist is empty. -/
def staleWhitelistEnv : PipelineEnv where
  collaborators := sampleCollaborators
  whitelisted_numbers := []
  existing_user := some ⟨"+905551234567", true⟩
  prior_messages := []
  max_conversation_history := 10

/-- Environment for the C2 witness: first contact from a sender who is not on
the configured whitelist. -/
def firstContactEnv : PipelineEnv where
  collaborators := sampleCollaborators
  whitelisted_numbers := ["+905551234567"]
  existing_user := none
  prior_messages := []
  max_conversation_history := 10

/-- Counterexample to C2 as stated: the sender `+905551234567` is absent from
the configured whitelist, yet — because the gate reads the stale persisted
flag, never the live configuration — the pipeline invokes the AI
collaborator for their text message. -/
theorem claim2_counterexample :
    ("+905551234567" ∉ staleWhitelistEnv.whitelisted_numbers)
    ∧ (process_incoming_message staleWhitelistEnv "+905551234567" "Merhaba"
        MessageType.text none none).1.any Effect.isAICall = true := by
  exact ⟨by decide, by decide⟩

/-- C2 amended: for every inbound event whose sender's resolved `users` row
is not whitelisted — which on first contact is exactly when the sender is
absent from the configured whitelist — the run consists of the optional user
creation followed only by the fixed not-authorized notice send: no AI call of
any kind, no conversation resolution, no incoming message row, and the run
reports failure. On first contact the user row is still created. -/
theorem claim2_unauthorized_no_ai (env : PipelineEnv)
    (from_number message_body : String) (message_type : MessageType)
    (media_url media_content_type : Option String)
    (h : match env.existing_user with
         | some u => u.is_whitelisted = false
         | none => from_number ∉ env.whitelisted_numbers) :
    process_incoming_message env from_number message_body message_type
        media_url media_content_type
      = ((if (get_or_create_user env.existing_user from_number
              env.whitelisted_numbers).2
          then [Effect.userCreated from_number] else [])
          ++ [Effect.sendMessageCall from_number notWhitelistedMessage], false)
    ∧ (∀ e ∈ (process_incoming_message env from_number message_body message_type
          media_url media_content_type).1, e.isAICall = false)
    ∧ (env.existing_user = none →
        Effect.userCreated from_number
          ∈ (process_incoming_message env from_number message_body message_type
              media_url media_content_type).1)
    ∧ Effect.conversationResolved
        ∉ (process_incoming_message env from_number message_body message_type
            media_url media_content_type).1
    ∧ (∀ s, Effect.incomingMessageCreated s
        ∉ (process_incoming_message env from_number message_body message_type
            media_url media_content_type).1) := by
  have hflag : (get_or_create_user env.existing_user from_number
      env.whitelisted_numbers).1.is_whitelisted = false := by
    cases henv : env.existing_user with
    | some u =>
      rw [henv] at h
      simpa [get_or_create_user] using h
    | none =>
      rw [henv] at h
      simp only [get_or_create_user]
      simpa using h
  have htrace : process_incoming_message env from_number message_body message_type
      media_url media_content_type
      = ((if (get_or_create_user env.existing_user from_number
              env.whitelisted_numbers).2
          then [Effect.userCreated from_number] else [])
          ++ [Effect.sendMessageCall from_number notWhitelistedMessage], false) := by
    unfold process_incoming_message
    simp [hflag]
  rw [htrace]
  refine ⟨rfl, ?_, ?_, ?_, ?_⟩
  · intro e he
    by_cases hb : (get_or_create_user env.existing_user from_number
        env.whitelisted_numbers).2 = true
    · simp only [hb, if_true, List.mem_append, List.mem_singleton,
        List.mem_cons, List.not_mem_nil, or_false] at he
      rcases he with he | he <;> subst he <;> rfl
    · simp only [Bool.not_eq_true] at hb
      simp [hb] at he
      subst he
      rfl
  · intro hnone
    rw [hnone]
    simp [get_or_create_user]
  · by_cases hb : (get_or_create_user env.existing_user from_number
        env.whitelisted_numbers).2 = true
    · simp [hb]
    · simp only [Bool.not_eq_true] at hb
      simp [hb]
  · intro s
    by_cases hb : (get_or_create_user env.existing_user from_number
        env.whitelisted_numbers).2 = true
    · simp [hb]
    · simp only [Bool.not_eq_true] at hb
      simp [hb]

/-- Witness for C2's amended theorem: first contact from an unlisted sender;
a user row is created and the fixed notice is the only send. -/
theorem claim2_unauthorized_no_ai_witness :
    ("+905550000002" ∉ firstContactEnv.whitelisted_numbers)
    ∧ Effect.userCreated "+905550000002"
        ∈ (process_incoming_message firstContactEnv "+905550000002" "selam"
            MessageType.text none none).1 :=
  ⟨by decide,
    (claim2_unauthorized_no_ai firstContactEnv "+905550000002" "selam"
      MessageType.text none none
      (show ("+905550000002" ∉ firstContactEnv.whitelisted_numbers) by decide)).2.2.1 rfl⟩

/-- Counterexample to C5 as stated: when the just-stored current message has
empty (falsy) content, the `if msg.content:` filter silently removes it from
the assembled context, so `conversation_context[:-1]` drops a genuine history
entry instead of the current message: the context passed to the AI no longer
contains the preceding history verbatim. -/
theorem claim5_counterexample :
    text_ai_context
        [⟨MessageDirection.outgoing, "Merhaba Ahmet!"⟩,
         ⟨MessageDirection.incoming, ""⟩] 10 ""
      ≠ spec_text_ai_context
        [⟨MessageDirection.outgoing, "Merhaba Ahmet!"⟩,
         ⟨MessageDirection.incoming, ""⟩] 10 "" := by
  decide

/-- C5 amended: for a text event with nonempty body whose conversation's
prior messages all have nonempty content, the context passed to the AI
collaborator is exactly the claim's context — the `limit` most recent
persisted messages chronologically with roles Incoming→"user" /
Outgoing→"assistant", the just-stored current message excluded, and the new
user text as last entry; in particular it matches the claim's concrete
Turkish example verbatim. The AI call of the text path receives exactly this
context's history part. -/
theorem claim5_text_context (c : Collaborators) (prior : List StoredMsg)
    (message_text : String) (limit : Nat)
    (hlim : 0 < limit) (htext : message_text ≠ "")
    (hprior : ∀ m ∈ prior, m.content ≠ "") :
    text_ai_context (prior ++ [⟨MessageDirection.incoming, message_text⟩])
        limit message_text
      = spec_text_ai_context (prior ++ [⟨MessageDirection.incoming, message_text⟩])
        limit message_text
    ∧ text_ai_context (prior ++ [⟨MessageDirection.incoming, message_text⟩])
        limit message_text
      = ((prior.reverse.take (limit - 1)).reverse.map
          (fun m => ⟨roleOf m.direction, m.content⟩)) ++ [⟨"user", message_text⟩]
    ∧ (process_text_message c (prior ++ [⟨MessageDirection.incoming, message_text⟩])
        limit message_text).1.head?
      = some (Effect.aiGenerateCall message_text
          ((text_ai_context (prior ++ [⟨MessageDirection.incoming, message_text⟩])
            limit message_text).dropLast))
    ∧ text_ai_context
        [⟨MessageDirection.incoming, "Benim adım Ahmet"⟩,
         ⟨MessageDirection.outgoing, "Merhaba Ahmet!"⟩,
         ⟨MessageDirection.incoming, "Adımı hatırlıyor musun?"⟩]
        10 "Adımı hatırlıyor musun?"
      = [⟨"user", "Benim adım Ahmet"⟩, ⟨"assistant", "Merhaba Ahmet!"⟩,
         ⟨"user", "Adımı hatırlıyor musun?"⟩] := by
  have htake : ((prior ++ [(⟨MessageDirection.incoming, message_text⟩ : StoredMsg)]).reverse).take limit
      = ⟨MessageDirection.incoming, message_text⟩ :: prior.reverse.take (limit - 1) := by
    rw [List.reverse_concat]
    exact List.take_cons hlim
  have hfilter : ((prior.reverse.take (limit - 1)).reverse
        ++ [(⟨MessageDirection.incoming, message_text⟩ : StoredMsg)]).filter
        (fun m => decide (m.content ≠ ""))
      = (prior.reverse.take (limit - 1)).reverse
          ++ [⟨MessageDirection.incoming, message_text⟩] := by
    apply List.filter_eq_self.mpr
    intro m hm
    rcases List.mem_append.mp hm with hmem | hmem
    · rw [List.mem_reverse] at hmem
      have hmem2 : m ∈ prior.reverse := List.mem_of_mem_take hmem
      rw [List.mem_reverse] at hmem2
      simpa using hprior m hmem2
    · simp only [List.mem_singleton] at hmem
      subst hmem
      simpa using htext
  have hctx : buildConversationContext (get_conversation_history
        (prior ++ [⟨MessageDirection.incoming, message_text⟩]) limit)
      = ((prior.reverse.take (limit - 1)).reverse.map
          (fun m => ⟨roleOf m.direction, m.content⟩)) ++ [⟨"user", message_text⟩] := by
    unfold buildConversationContext get_conversation_history
    rw [htake, List.reverse_cons, hfilter, List.map_append]
    rfl
  have hmain : text_ai_context (prior ++ [⟨MessageDirection.incoming, message_text⟩])
        limit message_text
      = ((prior.reverse.take (limit - 1)).reverse.map
          (fun m => ⟨roleOf m.direction, m.content⟩)) ++ [⟨"user", message_text⟩] := by
    unfold text_ai_context generate_response_messages
    rw [hctx, List.dropLast_concat]
  have hspec : spec_text_ai_context (prior ++ [⟨MessageDirection.incoming, message_text⟩])
        limit message_text
      = ((prior.reverse.take (limit - 1)).reverse.map
          (fun m => ⟨roleOf m.direction, m.content⟩)) ++ [⟨"user", message_text⟩] := by
    unfold spec_text_ai_context
    rw [htake, List.reverse_cons, List.dropLast_concat]
  refine ⟨hmain.trans hspec.symm, hmain, ?_, by decide⟩
  unfold process_text_message
  cases hg : c.generate_response message_text
      ((buildConversationContext (get_conversation_history
        (prior ++ [⟨MessageDirection.incoming, message_text⟩]) limit)).dropLast) with
  | ok v =>
    rcases v with ⟨r, p, q⟩
    simp [hg, text_ai_context, generate_response_messages, List.dropLast_concat]
  | error e =>
    simp [hg, text_ai_context, generate_response_messages, List.dropLast_concat]

/-- Witness for C5's amended theorem at the claim's concrete history. -/
theorem claim5_text_context_witness :
    (0 < 10 ∧ ("Adımı hatırlıyor musun?" : String) ≠ ""
      ∧ ∀ m ∈ ([⟨MessageDirection.incoming, "Benim adım Ahmet"⟩,
          ⟨MessageDirection.outgoing, "Merhaba Ahmet!"⟩] : List StoredMsg),
          m.content ≠ "")
    ∧ text_ai_context
        [⟨MessageDirection.incoming, "Benim adım Ahmet"⟩,
         ⟨MessageDirection.outgoing, "Merhaba Ahmet!"⟩,
         ⟨MessageDirection.incoming, "Adımı hatırlıyor musun?"⟩]
        10 "Adımı hatırlıyor musun?"
      = [⟨"user", "Benim adım Ahmet"⟩, ⟨"assistant", "Merhaba Ahmet!"⟩,
         ⟨"user", "Adımı hatırlıyor musun?"⟩] :=
  ⟨⟨by decide, by decide, by decide⟩,
    (claim5_text_context sampleCollaborators
      [⟨MessageDirection.incoming, "Benim adım Ahmet"⟩,
       ⟨MessageDirection.outgoing, "Merhaba Ahmet!"⟩]
      "Adımı hatırlıyor musun?" 10 (by decide) (by decide) (by decide)).2.2.2⟩

/-- Counterexample to C9 as stated: a non-PDF document whose media download
fails yields the fixed download-failure reply, not the unsupported-document
reply (no AI call is made either way). -/
theorem claim9_counterexample :
    (process_document_message sampleCollaborators none (some "text/plain")).2
      = downloadFailedDocumentMessage
    ∧ (process_document_message sampleCollaborators none (some "text/plain")).2
      ≠ unsupportedDocumentMessage
    ∧ (process_document_message sampleCollaborators none
        (some "text/plain")).1.any Effect.isAICall = false := by
  refine ⟨rfl, by decide, rfl⟩

/-- C9 amended: for every document event whose declared content type is not
`application/pdf`, the document path performs zero AI-collaborator
invocations, and whenever the media download succeeds it returns exactly the
fixed unsupported-document reply after cleaning up the temporary file. -/
theorem claim9_non_pdf_document (c : Collaborators)
    (media_url content_type : Option String)
    (h : content_type ≠ some "application/pdf") :
    (process_document_message c media_url content_type).1.any Effect.isAICall = false
    ∧ (∀ doc_path, c.download_media media_url = some doc_path →
        process_document_message c media_url content_type
          = ([Effect.mediaDownloadCall media_url, Effect.cleanupCall doc_path],
             unsupportedDocumentMessage)) := by
  constructor
  · cases hdl : c.download_media media_url with
    | none => simp [process_document_message, hdl, Effect.isAICall]
    | some doc_path => simp [process_document_message, hdl, h, Effect.isAICall]
  · intro doc_path hdl
    simp [process_document_message, hdl, h]

/-- Witness for C9's amended theorem at a concrete non-PDF content type with
a succeeding download. -/
theorem claim9_non_pdf_document_witness :
    ((some "text/plain" : Option String) ≠ some "application/pdf")
    ∧ process_document_message downloadOkCollaborators none (some "text/plain")
      = ([Effect.mediaDownloadCall none,
          Effect.cleanupCall "/data/temp_media/doc.bin"],
         unsupportedDocumentMessage) :=
  ⟨by decide,
    (claim9_non_pdf_document downloadOkCollaborators none (some "text/plain")
      (by decide)).2 "/data/temp_media/doc.bin" rfl⟩

/-- C10: an outgoing `Message` row is persisted exactly when the provider
send returns a truthy message identifier (`None` and the empty string are
falsy, i.e. "no identifier"): a successful send is recorded with the returned
identifier as the only persistence effect besides the send itself, and a
failed send leaves no outgoing row. -/
theorem claim10_outgoing_persisted_iff (c : Collaborators)
    (to_number message : String) :
    (∀ message_sid, c.send_message to_number message = some message_sid →
        message_sid ≠ "" →
        send_response c to_number message
          = [Effect.sendMessageCall to_number message,
             Effect.outgoingMessageCreated message message_sid])
    ∧ (c.send_message to_number message = none →
        send_response c to_number message
          = [Effect.sendMessageCall to_number message])
    ∧ (∀ content message_sid,
        Effect.outgoingMessageCreated content message_sid
            ∈ send_response c to_number message
          ↔ (c.send_message to_number message = some message_sid
              ∧ message_sid ≠ "" ∧ content = message)) := by
  refine ⟨?_, ?_, ?_⟩
  · intro message_sid hs hne
    simp [send_response, hs, hne]
  · intro hn
    simp [send_response, hn]
  · intro content message_sid
    cases hs : c.send_message to_number message with
    | none =>
      simp [send_response, hs]
    | some s =>
      by_cases hse : s = ""
      · subst hse
        have hresp : send_response c to_number message
            = [Effect.sendMessageCall to_number message] := by
          simp [send_response, hs]
        rw [hresp]
        simp only [List.mem_singleton]
        constructor
        · intro hmem
          exact absurd hmem (by simp)
        · rintro ⟨h1, h2, _⟩
          injection h1 with h1
          exact absurd h1.symm h2
      · simp only [send_response, hs, hse, ne_eq, not_false_iff, if_true]
        constructor
        · intro hmem
          rcases List.mem_cons.mp hmem with hmem | hmem
          · exact absurd hmem (by simp)
          · simp only [List.mem_singleton] at hmem
            injection hmem with h1 h2
            exact ⟨by rw [h2], by rw [h2]; exact hse, h1⟩
        · rintro ⟨h1, _, h3⟩
          injection h1 with h1
          subst h1
          subst h3
          simp

/-- Witness for C10 at a concrete successful send. -/
theorem claim10_outgoing_persisted_iff_witness :
    downloadOkCollaborators.send_message "+905551234567" "Merhaba!" = some "SM2"
    ∧ ("SM2" : String) ≠ ""
    ∧ send_response downloadOkCollaborators "+905551234567" "Merhaba!"
      = [Effect.sendMessageCall "+905551234567" "Merhaba!",
         Effect.outgoingMessageCreated "Merhaba!" "SM2"] :=
  ⟨rfl, by decide,
    (claim10_outgoing_persisted_iff downloadOkCollaborators "+905551234567"
      "Merhaba!").1 "SM2" rfl (by decide)⟩
